import Mathlib

/-!
Shallow embedding of the arXiv OAI-PMH harvest connector
(`src/ingest/oai_harvest.py`, `src/main.py`, `src/nodes/papers.py`).

XML elements are modelled as plain structures; `findtext(tag, default)`
semantics is `Option.getD`: a field holds `none` when the child element is
absent, and `some t` when present with text `t` (ElementTree returns `''`
for an element without text, so `some ""` covers that case).
-/

set_option maxRecDepth 4000

/-- Worker for `pySplit`: `acc` holds the characters of the current
fragment in reverse. -/
def pySplitGo : List Char → List Char → List String
  | acc, [] => if acc = [] then [] else [⟨acc.reverse⟩]
  | acc, c :: rest =>
    if c.isWhitespace then
      (if acc = [] then [] else [⟨acc.reverse⟩]) ++ pySplitGo [] rest
    else
      pySplitGo (c :: acc) rest

/-- Python's `str.split()` with no argument: split on runs of whitespace,
dropping the empty fragments. -/
def pySplit (s : String) : List String :=
  pySplitGo [] s.data

/-- Python's `str.strip()` with no argument: drop leading and trailing
whitespace. -/
def pyStrip (s : String) : String :=
  ⟨((s.data.dropWhile Char.isWhitespace).reverse.dropWhile Char.isWhitespace).reverse⟩

/-- Worker for `pyReplace`, structurally recursive on a fuel argument so
that the kernel can evaluate it; the fuel passed by `pyReplace` always
suffices for a non-empty pattern. -/
def pyReplaceGo (pat repl : List Char) : Nat → List Char → List Char
  | _, [] => []
  | 0, s => s
  | fuel + 1, c :: rest =>
    if pat ≠ [] ∧ pat.isPrefixOf (c :: rest) then
      repl ++ pyReplaceGo pat repl fuel ((c :: rest).drop pat.length)
    else
      c :: pyReplaceGo pat repl fuel rest

/-- Python's `str.replace(pat, repl)`: replace every non-overlapping
occurrence of `pat`, scanning left to right.  (The source never calls it
with an empty pattern.) -/
def pyReplace (s pat repl : String) : String :=
  ⟨pyReplaceGo pat.data repl.data s.data.length s.data⟩

/-- Model of an `arx:author` element: optional `arx:keyname` and
`arx:forenames` children. -/
structure Author where
  keyname : Option String
  forenames : Option String
deriving Repr, DecidableEq

/-- Model of the `arx:arXiv` metadata element.  Each field is the text of
the corresponding child (`none` when the child is absent).  `categoriesText`
is the text of `arx:categories` (`none` for an absent element or an element
whose text is `None`); `authorsElem` is `none` when `arx:authors` is absent. -/
structure ArxMeta where
  title : Option String
  abstract : Option String
  comments : Option String
  journalRef : Option String
  doi : Option String
  license : Option String
  created : Option String
  updated : Option String
  categoriesText : Option String
  authorsElem : Option (List Author)
deriving Repr, DecidableEq

/-- Model of an `oai:header` element: the `status` attribute and the
`oai:identifier` / `oai:datestamp` children. -/
structure OaiHeader where
  status : Option String
  identifier : Option String
  datestamp : Option String
deriving Repr, DecidableEq

/-- Model of an `oai:record` element.  `metadata` is `none` when the
`oai:metadata` element is absent, `some none` when it is present but holds
no `arx:arXiv` child, and `some (some m)` otherwise. -/
structure RecordElem where
  header : Option OaiHeader
  metadata : Option (Option ArxMeta)
deriving Repr, DecidableEq

/-- The dict built by `parse_arxiv_record` (lines 53–67 of
`oai_harvest.py`). -/
structure ArxivRecord where
  id : Option String
  datestamp : String
  title : Option String
  authors : List String
  abstract : Option String
  categories : List String
  primary_category : Option String
  comments : Option String
  journal_ref : Option String
  doi : Option String
  created : Option String
  updated : Option String
  license : Option String
deriving Repr, DecidableEq

/-- Display name of one author: `f"{forenames} {keyname}".strip()`. -/
def authorName (a : Author) : String :=
  pyStrip ((a.forenames.getD "") ++ " " ++ (a.keyname.getD ""))

/-- Embedding of `parse_arxiv_record` (`oai_harvest.py` lines 37–104).
Returns `none` when the header is absent or the header status is
`deleted`; otherwise builds the record dict, filling metadata fields when
the `arx:arXiv` element is present. -/
def parse_arxiv_record (r : RecordElem) : Option ArxivRecord :=
  match r.header with
  | none => none
  | some h =>
    if h.status = some "deleted" then none
    else
      -- identifier = header.findtext('oai:identifier', '', NS)
      let identifier := h.identifier.getD ""
      let datestamp := h.datestamp.getD ""
      -- arxiv_id = identifier.replace('oai:arXiv.org:', '') if identifier else None
      let arxiv_id : Option String :=
        if identifier ≠ "" then some (pyReplace identifier "oai:arXiv.org:" "") else none
      let base : ArxivRecord :=
        { id := arxiv_id, datestamp := datestamp, title := none, authors := [],
          abstract := none, categories := [], primary_category := none,
          comments := none, journal_ref := none, doi := none,
          created := none, updated := none, license := none }
      match r.metadata with
      | none => some base
      | some none => some base
      | some (some arx) =>
        -- categories_elem.text.split() when the element is present with truthy text
        let cats : List String :=
          match arx.categoriesText with
          | some t => if t ≠ "" then pySplit t else []
          | none => []
        let auths : List String :=
          match arx.authorsElem with
          | none => []
          | some as => (as.map authorName).filter (· ≠ "")
        some { base with
          title := some (pyReplace (pyStrip (arx.title.getD "")) "\n" " ")
          abstract := some (pyStrip (arx.abstract.getD ""))
          comments := arx.comments
          journal_ref := arx.journalRef
          doi := arx.doi
          license := arx.license
          created := arx.created
          updated := arx.updated
          categories := cats
          primary_category := cats.head?
          authors := auths }

example :
    parse_arxiv_record
      { header := some { status := some "deleted", identifier := some "oai:arXiv.org:1", datestamp := some "d" },
        metadata := none } = none := by decide

example :
    (parse_arxiv_record
      { header := some { status := none, identifier := some "oai:arXiv.org:1234.5", datestamp := some "d" },
        metadata := none }).map (·.id) = some (some "1234.5") := by decide

example :
    (parse_arxiv_record
      { header := some { status := none, identifier := none, datestamp := some "d" },
        metadata := none }).map (·.id) = some none := by decide

/-! ## Protocol client: `fetch_batch` (`oai_harvest.py` lines 107–164)

The network is modelled by an oracle: a finite list of transport outcomes,
one consumed per HTTP request issued.  `fetch_batch` returns the list of
observable events it performed (requests and sleeps), its result, and the
unconsumed tail of the oracle. -/

deriving instance DecidableEq for Except

/-- Model of the first `.//oai:error` element of a response body. -/
structure OaiError where
  code : Option String
  text : Option String
deriving Repr, DecidableEq

/-- Parsed XML body of a `ListRecords` response: optional error element,
the `oai:record` elements, and the text of the `oai:resumptionToken`
element (`none` when the element is absent or has no text). -/
structure OaiBody where
  error : Option OaiError
  records : List RecordElem
  tokenText : Option String
deriving Repr, DecidableEq

/-- Model of an HTTP response: status code, the `Retry-After` header, and
the parsed body. -/
structure HttpResponse where
  status : Nat
  retryAfter : Option Nat
  body : OaiBody
deriving Repr, DecidableEq

/-- Outcome of one `get(url)` call: either a transport-level exception
(`httpx.TimeoutException` / `ConnectError` / `ReadError`) or a response. -/
inductive TransportOutcome where
  | netError
  | response (r : HttpResponse)
deriving Repr, DecidableEq

/-- Observable events of `fetch_batch`: an HTTP request carrying the
resumption token used to build the URL, or a `time.sleep(seconds)`. -/
inductive FetchEvent where
  | request (token : Option String)
  | sleep (seconds : Nat)
deriving Repr, DecidableEq

/-- Errors surfaced by `fetch_batch`: the re-raised transport error after
exhausting retries (line 132), a non-200 status (line 142), an OAI error
envelope (line 149), or the model artifact of running off the end of the
scripted oracle. -/
inductive FetchError where
  | transient
  | httpError (status : Nat)
  | oaiError (code : Option String) (text : Option String)
  | oracleExhausted
deriving Repr, DecidableEq

/-- Records retained from a response body: `parse_arxiv_record` applied to
each `oai:record`, keeping the non-`None` results (lines 152–156). -/
def parsedRecords (b : OaiBody) : List ArxivRecord :=
  b.records.filterMap parse_arxiv_record

/-- Resumption token extracted from a response body (lines 159–162):
the element's text when present and non-empty, else `None`. -/
def bodyNextToken (b : OaiBody) : Option String :=
  match b.tokenText with
  | some t => if t ≠ "" then some t else none
  | none => none

/-- Embedding of `fetch_batch` (lines 107–164), structurally recursive on
the oracle.  `attempt` is the running index of the Python retry `for`
loop; on a transport error with attempts remaining it sleeps
`30 * (attempt + 1)` seconds and retries (lines 119–129), and after
`maxRetries` failures re-raises the transport error (line 132).  A 503
response sleeps for the `Retry-After` hint (default 30) and restarts the
whole call with the same token and a fresh retry budget, exactly as the
source's recursive `fetch_batch(resumption_token, max_retries)` call
(lines 134–139).  Otherwise a non-200 status or an OAI error envelope is
an error, and a 200 envelope yields the parsed records and next token. -/
def fetchLoop (token : Option String) (maxRetries : Nat) :
    List TransportOutcome → Nat →
    List FetchEvent × Except FetchError (List ArxivRecord × Option String) × List TransportOutcome
  | [], _ => ([FetchEvent.request token], .error .oracleExhausted, [])
  | .netError :: rest, attempt =>
    if attempt + 1 < maxRetries then
      let wait := 30 * (attempt + 1)
      let (evs, res, rem) := fetchLoop token maxRetries rest (attempt + 1)
      (FetchEvent.request token :: FetchEvent.sleep wait :: evs, res, rem)
    else
      ([FetchEvent.request token], .error .transient, rest)
  | .response r :: rest, _ =>
    if r.status = 503 then
      let retryAfter := r.retryAfter.getD 30
      let (evs, res, rem) := fetchLoop token maxRetries rest 0
      (FetchEvent.request token :: FetchEvent.sleep retryAfter :: evs, res, rem)
    else if r.status ≠ 200 then
      ([FetchEvent.request token], .error (.httpError r.status), rest)
    else
      match r.body.error with
      | some e => ([FetchEvent.request token], .error (.oaiError e.code e.text), rest)
      | none => ([FetchEvent.request token], .ok (parsedRecords r.body, bodyNextToken r.body), rest)

/-- Entry point of the protocol client: `fetch_batch(resumption_token,
max_retries)` with the retry loop starting at attempt 0. -/
def fetch_batch (net : List TransportOutcome) (token : Option String) (maxRetries : Nat) :
    List FetchEvent × Except FetchError (List ArxivRecord × Option String) × List TransportOutcome :=
  fetchLoop token maxRetries net 0

example :
    (fetch_batch [.netError, .netError, .netError] (some "tok") 3).2.1 = .error .transient := by
  decide

example :
    (fetch_batch [.netError,
      .response { status := 200, retryAfter := none,
                  body := { error := none, records := [], tokenText := some "t2" } }]
      (some "t1") 3).1 =
    [.request (some "t1"), .sleep 30, .request (some "t1")] := by decide

/-! ## Harvest loop: `run` (`oai_harvest.py` lines 182–279)

The wall clock is modelled by a second oracle `budget`: one Boolean per
loop iteration giving the outcome of the `elapsed >= GH_ACTIONS_MAX_RUN_SECONDS`
check at the top of the loop (line 215).  An exhausted budget list behaves
like an exhausted time budget, which keeps the model total; every claim is
stated with an explicit budget oracle.  The gzip output file is modelled
as the list of record lines it holds. -/

/-- The checkpoint dict saved under the `oai_harvest` namespace
(lines 259–263): `resumption_token`, `total_harvested`, `batch_num`. -/
structure HarvestState where
  resumption_token : Option String
  total_harvested : Nat
  batch_num : Nat
deriving Repr, DecidableEq

/-- Observable events of one harvest run, in order: HTTP requests and
sleeps (from `fetch_batch`), writing a batch of records to the output
file, saving the checkpoint, and the raw-data upload. -/
inductive RunEvent where
  | request (token : Option String)
  | sleepEv (seconds : Nat)
  | writeEv (records : List ArxivRecord)
  | saveEv (st : HarvestState)
  | uploadEv
deriving Repr, DecidableEq

/-- Lift a protocol-client event into the run trace. -/
def liftFE : FetchEvent → RunEvent
  | .request t => .request t
  | .sleep s => .sleepEv s

/-- Outcome of a run: a normal return of the `needs_continuation` flag, or
an exception propagating out of `run` (the bare `raise` of line 249). -/
inductive RunOutcome where
  | normal (needsContinuation : Bool)
  | raised (e : FetchError)
deriving Repr, DecidableEq

/-- Result of one harvest run: its event trace, the final content of the
output file, and its outcome. -/
structure RunResult where
  events : List RunEvent
  file : List ArxivRecord
  outcome : RunOutcome
deriving Repr, DecidableEq

/-- Embedding of the `while True` loop of `run` (lines 212–272), carrying
the loop variables `resumption_token`, `total_harvested`, `batch_num` and
the open output file.  Each iteration: check the time budget (lines
214–219); increment `batch_num` and fetch (lines 221–224); on a transport
error surviving retries, save `{token, total, batch_num - 1}` and break
with continuation (lines 225–236); on any other error, save, upload, and
re-raise (lines 237–249); otherwise write the records, save the new
checkpoint, stop if the token is exhausted, else sleep 3 s and continue
(lines 251–272). -/
def runLoop (budget : List Bool) (net : List TransportOutcome)
    (token : Option String) (total batchNum : Nat) (file : List ArxivRecord) :
    RunResult :=
  match budget with
  | [] => { events := [], file := file, outcome := .normal true }
  | exhausted :: budgetRest =>
    if exhausted then { events := [], file := file, outcome := .normal true }
    else
      let batchNum' := batchNum + 1
      let (fevs, res, netRest) := fetch_batch net token 3
      let evs := fevs.map liftFE
      match res with
      | .error .transient =>
        { events := evs ++ [.saveEv ⟨token, total, batchNum' - 1⟩],
          file := file, outcome := .normal true }
      | .error e =>
        { events := evs ++ [.saveEv ⟨token, total, batchNum' - 1⟩, .uploadEv],
          file := file, outcome := .raised e }
      | .ok (records, nextToken) =>
        let total' := total + records.length
        let st : HarvestState := ⟨nextToken, total', batchNum'⟩
        match nextToken with
        | none =>
          { events := evs ++ [.writeEv records, .saveEv st],
            file := file ++ records, outcome := .normal false }
        | some t =>
          let r := runLoop budgetRest netRest (some t) total' batchNum' (file ++ records)
          { events := evs ++ [.writeEv records, .saveEv st, .sleepEv 3] ++ r.events,
            file := r.file, outcome := r.outcome }

/-- Embedding of `run` (lines 182–279).  The loaded state gives the
starting loop variables; the output file is opened in append mode when a
resumption token is stored and truncated otherwise (line 207); after the
loop, a normal return uploads the raw file and yields the continuation
flag (lines 274–279). -/
def run (budget : List Bool) (net : List TransportOutcome)
    (prior : HarvestState) (priorFile : List ArxivRecord) : RunResult :=
  let file0 := if prior.resumption_token.isSome then priorFile else []
  let r := runLoop budget net prior.resumption_token prior.total_harvested prior.batch_num file0
  match r.outcome with
  | .raised _ => r
  | .normal _ => { r with events := r.events ++ [.uploadEv] }

/-- Checkpoints saved during a run, in order. -/
def savedStates (evs : List RunEvent) : List HarvestState :=
  evs.filterMap fun e => match e with | .saveEv s => some s | _ => none

/-- The durable checkpoint after a run: the last state it saved, or the
previously stored state when the run saved nothing. -/
def finalCheckpoint (prior : HarvestState) (r : RunResult) : HarvestState :=
  (savedStates r.events).getLast?.getD prior

/-- Process exit code of `main` (`main.py` lines 16–28): `sys.exit(2)`
when the harvest reports that continuation is needed, a normal exit 0
otherwise, and the interpreter's exit code 1 when the harvest raised. -/
def mainExitCode (r : RunResult) : Nat :=
  match r.outcome with
  | .raised _ => 1
  | .normal true => 2
  | .normal false => 0

/-! ## Durable state encoding and the downstream transform
(`src/nodes/papers.py` lines 33–48) -/

/-- JSON-style values stored in a checkpoint mapping. -/
inductive StateVal where
  | str (v : String)
  | nat (v : Nat)
  | null
  | strList (v : List String)
deriving Repr, DecidableEq

/-- Encoding of the dict passed to `save_state("oai_harvest", ...)`
(lines 230–234, 241–245 and 259–263 of `oai_harvest.py`): exactly the
keys `resumption_token` (null when the token is `None`),
`total_harvested` and `batch_num`. -/
def stateToKV (st : HarvestState) : List (String × StateVal) :=
  [("resumption_token", match st.resumption_token with
                        | some t => StateVal.str t
                        | none => StateVal.null),
   ("total_harvested", StateVal.nat st.total_harvested),
   ("batch_num", StateVal.nat st.batch_num)]

/-- Python `mapping.get(key)`: the value when the key is present, else
`None`. -/
def kvGet (kv : List (String × StateVal)) (k : String) : Option StateVal :=
  (kv.find? (fun p => p.1 = k)).map (·.2)

/-- Python `mapping.get(key, [])` specialised to list-of-string values:
the stored list when the key holds one, else the empty default. -/
def kvGetStrList (kv : List (String × StateVal)) (k : String) : List String :=
  match kvGet kv k with
  | some (StateVal.strList l) => l
  | _ => []

/-- The `sorted(set(fetched) - set(transformed))` computation of
`nodes/papers.py` lines 41–43: deduplicated set difference, sorted. -/
def papersNewDates (ingest transform : List (String × StateVal)) : List String :=
  let fetched := kvGetStrList ingest "fetched_dates"
  let transformed := kvGetStrList transform "transformed_dates"
  List.insertionSort (· ≤ ·) (fetched.dedup.filter (fun d => d ∉ transformed))

/-- Result of the transform's `run`: either the early return on an empty
date diff (line 45–47) or processing of the listed dates. -/
inductive TransformResult where
  | noNewDates
  | processed (dates : List String)
deriving Repr, DecidableEq

/-- Embedding of the control flow of `nodes/papers.py run` that the date
diff decides: with no new dates it returns without touching any data. -/
def papersRun (ingest transform : List (String × StateVal)) : TransformResult :=
  match papersNewDates ingest transform with
  | [] => .noNewDates
  | ds => .processed ds

/-! ## Trace checker for the save-before-next-request discipline -/

/-- Scan a run trace left to right; `pending` records that a batch has
been written to the output file but not yet checkpointed.  The scan fails
exactly when a network request is issued while a processed batch is
pending, i.e. before its `save_state` call. -/
def saveDiscipline : Bool → List RunEvent → Bool
  | _, [] => true
  | pending, e :: rest =>
    match e with
    | .writeEv _ => saveDiscipline true rest
    | .saveEv _ => saveDiscipline false rest
    | .request _ => !pending && saveDiscipline false rest
    | _ => saveDiscipline pending rest

/-! ## Helper lemmas about `parse_arxiv_record` -/

/-- A record element without an `oai:header` child is skipped. -/
theorem parse_of_header_none (r : RecordElem) (hh : r.header = none) :
    parse_arxiv_record r = none := by
  unfold parse_arxiv_record
  rw [hh]

/-- A record element whose header status is `deleted` is skipped. -/
theorem parse_of_deleted (r : RecordElem) (h : OaiHeader)
    (hh : r.header = some h) (hs : h.status = some "deleted") :
    parse_arxiv_record r = none := by
  unfold parse_arxiv_record
  rw [hh]
  simp [hs]

/-- The `id` field of a retained record is the stripped OAI identifier
when the header's identifier text is non-empty, and `None` otherwise. -/
theorem parse_retained_id (r : RecordElem) (h : OaiHeader) (rec : ArxivRecord)
    (hh : r.header = some h) (hp : parse_arxiv_record r = some rec) :
    rec.id = if h.identifier.getD "" ≠ ""
             then some (pyReplace (h.identifier.getD "") "oai:arXiv.org:" "")
             else none := by
  unfold parse_arxiv_record at hp
  rw [hh] at hp
  by_cases hs : h.status = some "deleted"
  · simp [hs] at hp
  · simp only [hs, if_false] at hp
    rcases hm : r.metadata with _ | om
    · rw [hm] at hp
      simp only [Option.some.injEq] at hp
      subst hp
      rfl
    · rcases om with _ | arx
      · rw [hm] at hp
        simp only [Option.some.injEq] at hp
        subst hp
        rfl
      · rw [hm] at hp
        simp only [Option.some.injEq] at hp
        subst hp
        rfl

/-- Field values of a retained record whose `arx:arXiv` metadata element
is present (lines 78–85 of `oai_harvest.py`). -/
theorem parse_meta_fields (r : RecordElem) (h : OaiHeader) (arx : ArxMeta)
    (rec : ArxivRecord) (hh : r.header = some h)
    (hm : r.metadata = some (some arx)) (hp : parse_arxiv_record r = some rec) :
    rec.title = some (pyReplace (pyStrip (arx.title.getD "")) "\n" " ") ∧
    rec.abstract = some (pyStrip (arx.abstract.getD "")) ∧
    rec.comments = arx.comments ∧
    rec.journal_ref = arx.journalRef ∧
    rec.doi = arx.doi ∧
    rec.license = arx.license ∧
    rec.created = arx.created ∧
    rec.updated = arx.updated := by
  unfold parse_arxiv_record at hp
  rw [hh] at hp
  by_cases hs : h.status = some "deleted"
  · simp [hs] at hp
  · simp only [hs, if_false, hm, Option.some.injEq] at hp
    subst hp
    exact ⟨rfl, rfl, rfl, rfl, rfl, rfl, rfl, rfl⟩

/-! ## Claims C2, C3, C4 on the record parser -/

/-- Concrete input for C2: a header is present and the entry is not
deleted, but the `oai:identifier` child is absent. -/
def c2Elem : RecordElem :=
  { header := some { status := none, identifier := none, datestamp := some "2024-01-02" },
    metadata := none }

/-- C2 counterexample: `parse_arxiv_record` retains a record whose
`id` is `None` when the header lacks an identifier — it neither skips the
entry nor guarantees a non-null identifier for retained records. -/
theorem C2_counterexample :
    (parse_arxiv_record c2Elem).isSome = true ∧
    (parse_arxiv_record c2Elem).map (·.id) = some none := by
  decide

/-- C2 (amended): parse skips an entry exactly when the header envelope
is absent or the entry is marked deleted — so a deleted entry is never
retained — but a retained record's identifier is null precisely when the
header's identifier text is absent or empty; a missing identifier does
not cause the entry to be skipped. -/
theorem C2_amended (r : RecordElem) :
    (r.header = none → parse_arxiv_record r = none) ∧
    (∀ h : OaiHeader, r.header = some h → h.status = some "deleted" →
        parse_arxiv_record r = none) ∧
    (∀ (h : OaiHeader) (rec : ArxivRecord), r.header = some h →
        parse_arxiv_record r = some rec →
        (rec.id = none ↔ h.identifier.getD "" = "")) := by
  refine ⟨fun hh => parse_of_header_none r hh,
          fun h hh hs => parse_of_deleted r h hh hs,
          fun h rec hh hp => ?_⟩
  rw [parse_retained_id r h rec hh hp]
  by_cases hi : h.identifier.getD "" = ""
  · simp [hi]
  · simp [hi]

/-- C2 amended witness: concrete instances of all three parts. -/
theorem C2_amended_witness :
    parse_arxiv_record { header := none, metadata := none } = none ∧
    parse_arxiv_record
      { header := some { status := some "deleted", identifier := some "oai:arXiv.org:7", datestamp := none },
        metadata := none } = none ∧
    (((parse_arxiv_record c2Elem).get (by decide)).id = none ↔
      (({ status := none, identifier := none, datestamp := some "2024-01-02"} : OaiHeader).identifier.getD "" = "")) :=
  ⟨(C2_amended { header := none, metadata := none }).1 rfl,
   (C2_amended _).2.1 _ rfl rfl,
   (C2_amended c2Elem).2.2 _ _ rfl (by decide)⟩

/-- Concrete input for C3: header present, `arx:arXiv` metadata element
present, but every optional textual child absent. -/
def c3Elem : RecordElem :=
  { header := some { status := none, identifier := some "oai:arXiv.org:2301.1", datestamp := some "2024-01-02" },
    metadata := some (some
      { title := none, abstract := none, comments := none, journalRef := none,
        doi := none, license := none, created := none, updated := none,
        categoriesText := none, authorsElem := none }) }

/-- C3 counterexample: with the metadata element present but the title
and abstract children absent, the retained record holds the empty string
(not null) in `title` and `abstract`, because `findtext` defaults them to
`''` before stripping. -/
theorem C3_counterexample :
    (parse_arxiv_record c3Elem).map (·.title) = some (some "") ∧
    (parse_arxiv_record c3Elem).map (·.abstract) = some (some "") := by
  decide

/-- C3 (amended): for a retained record whose `arx:arXiv` metadata
element is present, the six optional textual fields comments, journal
reference, DOI, license, creation date and update date are null when
absent; title and abstract, however, default to the empty string when
absent, not to null. -/
theorem C3_amended (r : RecordElem) (h : OaiHeader) (arx : ArxMeta)
    (rec : ArxivRecord) (hh : r.header = some h)
    (hm : r.metadata = some (some arx)) (hp : parse_arxiv_record r = some rec) :
    (arx.comments = none → rec.comments = none) ∧
    (arx.journalRef = none → rec.journal_ref = none) ∧
    (arx.doi = none → rec.doi = none) ∧
    (arx.license = none → rec.license = none) ∧
    (arx.created = none → rec.created = none) ∧
    (arx.updated = none → rec.updated = none) ∧
    (arx.title = none → rec.title = some "") ∧
    (arx.abstract = none → rec.abstract = some "") := by
  obtain ⟨ht, ha, hc, hj, hd, hl, hcr, hu⟩ := parse_meta_fields r h arx rec hh hm hp
  refine ⟨fun e => ?_, fun e => ?_, fun e => ?_, fun e => ?_,
          fun e => ?_, fun e => ?_, fun e => ?_, fun e => ?_⟩
  · rw [hc, e]
  · rw [hj, e]
  · rw [hd, e]
  · rw [hl, e]
  · rw [hcr, e]
  · rw [hu, e]
  · rw [ht, e]; decide
  · rw [ha, e]; decide

/-- C3 amended witness: the amended claim instantiated at `c3Elem`. -/
theorem C3_amended_witness :
    ((parse_arxiv_record c3Elem).get (by decide)).comments = none ∧
    ((parse_arxiv_record c3Elem).get (by decide)).title = some "" :=
  ⟨(C3_amended c3Elem _ _ _ rfl rfl (by decide)).1 rfl,
   (C3_amended c3Elem _ _ _ rfl rfl (by decide)).2.2.2.2.2.2.1 rfl⟩

/-- C4: a record element whose header carries the `deleted` status marker
is never retained, whatever the rest of its content. -/
theorem C4_deleted_never_retained (r : RecordElem) (h : OaiHeader)
    (hh : r.header = some h) (hs : h.status = some "deleted") :
    parse_arxiv_record r = none :=
  parse_of_deleted r h hh hs

/-- C4 witness: a deleted entry that still carries full metadata is
skipped. -/
theorem C4_deleted_never_retained_witness :
    parse_arxiv_record
      { header := some { status := some "deleted", identifier := some "oai:arXiv.org:2301.1", datestamp := some "2024-01-02" },
        metadata := some (some
          { title := some "A title", abstract := some "An abstract",
            comments := some "c", journalRef := some "j", doi := some "10.1/x",
            license := some "L", created := some "2023-01-01", updated := some "2023-02-01",
            categoriesText := some "cs.AI math.CO",
            authorsElem := some [{ keyname := some "Doe", forenames := some "Jane" }] }) }
      = none :=
  C4_deleted_never_retained _ _ rfl rfl

/-! ## Claims C5, C6, C7 on the protocol client -/

/-- Concrete input for C5: a 200 response whose body carries the OAI
`noRecordsMatch` error envelope. -/
def c5Net : List TransportOutcome :=
  [.response { status := 200, retryAfter := none,
               body := { error := some { code := some "noRecordsMatch", text := some "no records match" },
                         records := [], tokenText := none } }]

/-- C5 counterexample: on a `noRecordsMatch` error envelope,
`fetch_batch` raises (an `oaiError` result) instead of returning a valid
empty result; the code has no special case for that error code and no
date-scoped fetch at all. -/
theorem C5_counterexample :
    (fetch_batch c5Net none 3).2.1 =
      .error (.oaiError (some "noRecordsMatch") (some "no records match")) ∧
    (fetch_batch c5Net none 3).2.1 ≠ .ok ([], none) := by
  decide

/-- C5 (amended): every protocol-level error envelope in a 200 response,
the `noRecordsMatch` code included, surfaces a fatal protocol error from
`fetch_batch`; no error code yields an empty-result success. -/
theorem C5_amended (r : HttpResponse) (rest : List TransportOutcome)
    (token : Option String) (e : OaiError)
    (hs : r.status = 200) (he : r.body.error = some e) :
    (fetch_batch (.response r :: rest) token 3).2.1 =
      .error (.oaiError e.code e.text) := by
  unfold fetch_batch fetchLoop
  simp [hs, he]

/-- C5 amended witness: the amended claim at the concrete
`noRecordsMatch` response. -/
theorem C5_amended_witness :
    (fetch_batch c5Net none 3).2.1 =
      .error (.oaiError (some "noRecordsMatch") (some "no records match")) :=
  C5_amended
    { status := 200, retryAfter := none,
      body := { error := some { code := some "noRecordsMatch", text := some "no records match" },
                records := [], tokenText := none } }
    [] none
    { code := some "noRecordsMatch", text := some "no records match" }
    rfl rfl

/-- C6: with `max_retries = 3`, two transport failures followed by any
response produce exactly the backoff sleeps 30 s and 60 s and then the
same result, remaining oracle and subsequent events as an immediate
response; and three transport failures surface the Transient error after
the same two sleeps, with no third backoff sleep. -/
theorem C6_transient_retries (rest : List TransportOutcome) (r : HttpResponse)
    (token : Option String) :
    (fetch_batch (.netError :: .netError :: .response r :: rest) token 3 =
      (FetchEvent.request token :: FetchEvent.sleep 30 ::
         FetchEvent.request token :: FetchEvent.sleep 60 ::
         (fetch_batch (.response r :: rest) token 3).1,
       (fetch_batch (.response r :: rest) token 3).2.1,
       (fetch_batch (.response r :: rest) token 3).2.2)) ∧
    (fetch_batch (.netError :: .netError :: .netError :: rest) token 3 =
      ([.request token, .sleep 30, .request token, .sleep 60, .request token],
       .error .transient, rest)) :=
  ⟨rfl, rfl⟩

/-- C7: a server-busy (503) response makes the client sleep for the
`Retry-After` hint — 30 s when the header is absent — and re-issue the
same request with the same token and a fresh retry budget (the restarted
loop begins at attempt 0, whatever attempt count the 503 arrived with),
and every continuation of the loop starts by issuing a request with that
same token. -/
theorem C7_server_busy (r : HttpResponse) (rest : List TransportOutcome)
    (token : Option String) (m a : Nat) (hs : r.status = 503) :
    fetchLoop token m (.response r :: rest) a =
      (FetchEvent.request token :: FetchEvent.sleep (r.retryAfter.getD 30) ::
         (fetchLoop token m rest 0).1,
       (fetchLoop token m rest 0).2.1,
       (fetchLoop token m rest 0).2.2) ∧
    (fetchLoop token m rest 0).1.head? = some (.request token) := by
  constructor
  · conv_lhs => rw [fetchLoop]
    simp [hs]
  · match rest with
    | [] => rfl
    | .netError :: tail =>
      rw [fetchLoop]
      by_cases hlt : 0 + 1 < m
      · simp [hlt]
      · simp [hlt]
    | .response r2 :: tail =>
      rw [fetchLoop]
      by_cases h503 : r2.status = 503
      · simp [h503]
      · by_cases h200 : r2.status = 200
        · cases r2.body.error <;> simp [h503, h200]
        · simp [h503, h200]

/-- C7 witness: a 503 with no `Retry-After` hint followed by a normal
response, at attempt count 2. -/
theorem C7_server_busy_witness :
    (fetchLoop (some "tk") 3
        [.response { status := 503, retryAfter := none,
                     body := { error := none, records := [], tokenText := none } },
         .response { status := 200, retryAfter := none,
                     body := { error := none, records := [], tokenText := none } }] 2 =
      (FetchEvent.request (some "tk") :: FetchEvent.sleep 30 ::
         (fetchLoop (some "tk") 3
            [.response { status := 200, retryAfter := none,
                         body := { error := none, records := [], tokenText := none } }] 0).1,
       (fetchLoop (some "tk") 3
          [.response { status := 200, retryAfter := none,
                       body := { error := none, records := [], tokenText := none } }] 0).2.1,
       (fetchLoop (some "tk") 3
          [.response { status := 200, retryAfter := none,
                       body := { error := none, records := [], tokenText := none } }] 0).2.2)) ∧
    (fetchLoop (some "tk") 3
        [.response { status := 200, retryAfter := none,
                     body := { error := none, records := [], tokenText := none } }] 0).1.head? =
      some (.request (some "tk")) :=
  C7_server_busy _ _ (some "tk") 3 2 rfl

/-! ## Claim C8: checkpoint discipline of the harvest loop -/

/-- Protocol-client events (requests and sleeps) are neutral for the
save discipline when no batch is pending. -/
theorem saveDiscipline_fetch_events (l : List FetchEvent) (tail : List RunEvent) :
    saveDiscipline false (l.map liftFE ++ tail) = saveDiscipline false tail := by
  induction l with
  | nil => rfl
  | cons e t ih =>
    cases e <;> simp [liftFE, saveDiscipline, ih]

/-- C8: in every execution of the harvest loop, each batch written to the
output file is checkpointed (`save_state`) before any further network
request is issued — the trace scan `saveDiscipline` never finds a request
while a processed batch is pending. -/
theorem C8_save_before_next_request (budget : List Bool) (net : List TransportOutcome)
    (token : Option String) (total batchNum : Nat) (file : List ArxivRecord) :
    saveDiscipline false (runLoop budget net token total batchNum file).events = true := by
  induction budget generalizing net token total batchNum file with
  | nil => rfl
  | cons ex brest ih =>
    rcases hfb : fetch_batch net token 3 with ⟨fevs, res, netRest⟩
    cases ex
    · rw [runLoop, hfb]
      rcases res with e | ⟨records, nextToken⟩
      · rcases e <;> simp [saveDiscipline_fetch_events, saveDiscipline]
      · rcases nextToken with _ | t
        · simp [saveDiscipline_fetch_events, saveDiscipline]
        · show saveDiscipline false (fevs.map liftFE ++
              [RunEvent.writeEv records,
               RunEvent.saveEv ⟨some t, total + records.length, batchNum + 1⟩,
               RunEvent.sleepEv 3] ++
              (runLoop brest netRest (some t) (total + records.length) (batchNum + 1)
                (file ++ records)).events) = true
          rw [List.append_assoc, saveDiscipline_fetch_events]
          simp [saveDiscipline, ih]
    · rw [runLoop]
      rfl

/-! ## Step lemmas for the harvest loop -/

/-- A 200 response with no error envelope yields the parsed records and
the extracted next token, consuming one oracle entry. -/
theorem fetch_batch_ok (r : HttpResponse) (rest : List TransportOutcome)
    (token : Option String) (m : Nat) (hs : r.status = 200) (he : r.body.error = none) :
    fetch_batch (.response r :: rest) token m =
      ([.request token], .ok (parsedRecords r.body, bodyNextToken r.body), rest) := by
  unfold fetch_batch fetchLoop
  simp [hs, he]

/-- One loop iteration on a successful batch with a continuation token:
write, save the advanced checkpoint, sleep 3 s, and recurse. -/
theorem runLoop_ok_step (brest : List Bool) (net netRest : List TransportOutcome)
    (token : Option String) (total batchNum : Nat) (file : List ArxivRecord)
    (fevs : List FetchEvent) (recs : List ArxivRecord) (tk : String)
    (hfb : fetch_batch net token 3 = (fevs, .ok (recs, some tk), netRest)) :
    runLoop (false :: brest) net token total batchNum file =
      { events := fevs.map liftFE ++
          [.writeEv recs, .saveEv ⟨some tk, total + recs.length, batchNum + 1⟩, .sleepEv 3] ++
          (runLoop brest netRest (some tk) (total + recs.length) (batchNum + 1)
            (file ++ recs)).events,
        file := (runLoop brest netRest (some tk) (total + recs.length) (batchNum + 1)
            (file ++ recs)).file,
        outcome := (runLoop brest netRest (some tk) (total + recs.length) (batchNum + 1)
            (file ++ recs)).outcome } := by
  rw [runLoop, hfb]
  rfl

/-- One loop iteration on a successful batch with no continuation token:
write, save, and finish with `needs_continuation = False`. -/
theorem runLoop_done_step (brest : List Bool) (net netRest : List TransportOutcome)
    (token : Option String) (total batchNum : Nat) (file : List ArxivRecord)
    (fevs : List FetchEvent) (recs : List ArxivRecord)
    (hfb : fetch_batch net token 3 = (fevs, .ok (recs, none), netRest)) :
    runLoop (false :: brest) net token total batchNum file =
      { events := fevs.map liftFE ++
          [.writeEv recs, .saveEv ⟨none, total + recs.length, batchNum + 1⟩],
        file := file ++ recs,
        outcome := .normal false } := by
  rw [runLoop, hfb]
  rfl

/-- One loop iteration on a transient fetch error: save the loop state
as it was after the last successful batch and finish with
`needs_continuation = True`. -/
theorem runLoop_transient_step (brest : List Bool) (net netRest : List TransportOutcome)
    (token : Option String) (total batchNum : Nat) (file : List ArxivRecord)
    (fevs : List FetchEvent)
    (hfb : fetch_batch net token 3 = (fevs, .error .transient, netRest)) :
    runLoop (false :: brest) net token total batchNum file =
      { events := fevs.map liftFE ++ [.saveEv ⟨token, total, batchNum + 1 - 1⟩],
        file := file,
        outcome := .normal true } := by
  rw [runLoop, hfb]
  rfl

/-- Protocol-client events contain no checkpoint saves. -/
theorem savedStates_fetch_events (l : List FetchEvent) (tail : List RunEvent) :
    savedStates (l.map liftFE ++ tail) = savedStates tail := by
  induction l with
  | nil => rfl
  | cons e t ih => cases e <;> exact ih

/-! ## Claim C9: Transient error → checkpoint, early exit, exit code 2 -/

/-- C9: when a successful batch is followed by a fetch whose transport
retries are exhausted (a Transient error reaching the loop), the loop
saves a checkpoint equal to the one written after that last successful
batch, exits early with the continuation flag, and the process exit code
is 2. -/
theorem C9_transient_checkpoint_exit (r : HttpResponse) (rest : List TransportOutcome)
    (brest : List Bool) (token : Option String) (total batchNum : Nat)
    (file : List ArxivRecord) (tk : String)
    (hs : r.status = 200) (he : r.body.error = none)
    (ht : bodyNextToken r.body = some tk) :
    (runLoop (false :: false :: brest)
        (.response r :: .netError :: .netError :: .netError :: rest)
        token total batchNum file).outcome = .normal true ∧
    savedStates (runLoop (false :: false :: brest)
        (.response r :: .netError :: .netError :: .netError :: rest)
        token total batchNum file).events =
      [⟨some tk, total + (parsedRecords r.body).length, batchNum + 1⟩,
       ⟨some tk, total + (parsedRecords r.body).length, batchNum + 1⟩] ∧
    (runLoop (false :: false :: brest)
        (.response r :: .netError :: .netError :: .netError :: rest)
        token total batchNum file).file = file ++ parsedRecords r.body ∧
    mainExitCode (runLoop (false :: false :: brest)
        (.response r :: .netError :: .netError :: .netError :: rest)
        token total batchNum file) = 2 := by
  have h1 : fetch_batch (.response r :: .netError :: .netError :: .netError :: rest) token 3 =
      ([.request token], .ok (parsedRecords r.body, some tk),
       .netError :: .netError :: .netError :: rest) := by
    rw [fetch_batch_ok r _ token 3 hs he, ht]
  have h2 : fetch_batch (.netError :: .netError :: .netError :: rest) (some tk) 3 =
      ([.request (some tk), .sleep 30, .request (some tk), .sleep 60, .request (some tk)],
       .error .transient, rest) := rfl
  rw [runLoop_ok_step _ _ _ _ _ _ _ _ _ _ h1,
      runLoop_transient_step _ _ _ _ _ _ _ _ h2]
  exact ⟨rfl, rfl, rfl, rfl⟩

/-- Shared concrete record element: a live entry with an identifier and
no metadata block. -/
def okRecElem : RecordElem :=
  { header := some { status := none, identifier := some "oai:arXiv.org:2401.1",
                     datestamp := some "2024-01-02" },
    metadata := none }

/-- Concrete response for the C9 witness: one good batch carrying a
continuation token. -/
def c9Resp : HttpResponse :=
  { status := 200, retryAfter := none,
    body := { error := none, records := [okRecElem], tokenText := some "t2" } }

/-- C9 witness: the claim at a concrete one-batch-then-transient run. -/
theorem C9_transient_checkpoint_exit_witness :
    (runLoop [false, false] [.response c9Resp, .netError, .netError, .netError]
        none 0 0 []).outcome = .normal true ∧
    savedStates (runLoop [false, false]
        [.response c9Resp, .netError, .netError, .netError] none 0 0 []).events =
      [⟨some "t2", 0 + (parsedRecords c9Resp.body).length, 0 + 1⟩,
       ⟨some "t2", 0 + (parsedRecords c9Resp.body).length, 0 + 1⟩] ∧
    (runLoop [false, false] [.response c9Resp, .netError, .netError, .netError]
        none 0 0 []).file = [] ++ parsedRecords c9Resp.body ∧
    mainExitCode (runLoop [false, false]
        [.response c9Resp, .netError, .netError, .netError] none 0 0 []) = 2 :=
  C9_transient_checkpoint_exit c9Resp [] [] none 0 0 [] "t2" (by decide) (by decide) (by decide)

/-! ## Claim C1: re-running from a Done checkpoint -/

/-- Response for C1: the upstream source serves a single batch with no
continuation token — the same data on every run (no new upstream data). -/
def c1Resp : HttpResponse :=
  { status := 200, retryAfter := none,
    body := { error := none, records := [okRecElem], tokenText := none } }

/-- Network oracle for C1: one batch, then nothing new. -/
def oneBatchNet : List TransportOutcome :=
  [.response c1Resp]

/-- C1 counterexample: a first run from a cold start ends Done with
checkpoint `{null, 1, 1}`; a second run from that Done checkpoint against
the unchanged upstream data saves `{null, 2, 2}` — the second run is a
full re-harvest, not a no-op, and the stored checkpoint changes. -/
theorem C1_counterexample :
    (run [false] oneBatchNet ⟨none, 0, 0⟩ []).outcome = .normal false ∧
    finalCheckpoint ⟨none, 0, 0⟩ (run [false] oneBatchNet ⟨none, 0, 0⟩ []) = ⟨none, 1, 1⟩ ∧
    finalCheckpoint ⟨none, 1, 1⟩
      (run [false] oneBatchNet ⟨none, 1, 1⟩ (run [false] oneBatchNet ⟨none, 0, 0⟩ []).file) =
      ⟨none, 2, 2⟩ ∧
    (⟨none, 2, 2⟩ : HarvestState) ≠ ⟨none, 1, 1⟩ := by
  decide

/-- Saved checkpoints of a run are those of its loop. -/
theorem run_savedStates (budget : List Bool) (net : List TransportOutcome)
    (prior : HarvestState) (priorFile : List ArxivRecord) :
    savedStates (run budget net prior priorFile).events =
      savedStates (runLoop budget net prior.resumption_token prior.total_harvested
        prior.batch_num (if prior.resumption_token.isSome then priorFile else [])).events := by
  unfold run
  cases houtcome : (runLoop budget net prior.resumption_token prior.total_harvested
      prior.batch_num (if prior.resumption_token.isSome then priorFile else [])).outcome <;>
    simp [houtcome, savedStates, List.filterMap_append]

/-- The first checkpoint saved after a successful fetch advances
`batch_num` by one. -/
theorem runLoop_first_save (brest : List Bool) (net netRest : List TransportOutcome)
    (token : Option String) (total batchNum : Nat) (file : List ArxivRecord)
    (fevs : List FetchEvent) (recs : List ArxivRecord) (nt : Option String)
    (hfb : fetch_batch net token 3 = (fevs, .ok (recs, nt), netRest)) :
    (savedStates (runLoop (false :: brest) net token total batchNum file).events).head? =
      some ⟨nt, total + recs.length, batchNum + 1⟩ := by
  rw [runLoop, hfb]
  cases nt
  · show (savedStates (fevs.map liftFE ++ [.writeEv recs,
        .saveEv ⟨none, total + recs.length, batchNum + 1⟩])).head? = _
    rw [savedStates_fetch_events]
    rfl
  · show (savedStates (fevs.map liftFE ++ [.writeEv recs, .saveEv _, .sleepEv 3] ++ _)).head? = _
    rw [List.append_assoc, savedStates_fetch_events]
    rfl

/-- C1 (amended): re-running from a Done checkpoint (null resumption
token) is not a no-op.  The run is independent of the prior output file —
the file is opened in truncate mode — and as soon as the first fetch of
the re-run succeeds, the first checkpoint it saves carries
`batch_num = prior.batch_num + 1` and the accumulated totals of a fresh
harvest, so the stored checkpoint changes. -/
theorem C1_amended (brest : List Bool) (netRest : List TransportOutcome)
    (prior : HarvestState) (priorFile : List ArxivRecord) (r : HttpResponse)
    (hd : prior.resumption_token = none)
    (hs : r.status = 200) (he : r.body.error = none) :
    run (false :: brest) (.response r :: netRest) prior priorFile =
      run (false :: brest) (.response r :: netRest) prior [] ∧
    (savedStates (run (false :: brest) (.response r :: netRest) prior priorFile).events).head? =
      some ⟨bodyNextToken r.body,
            prior.total_harvested + (parsedRecords r.body).length,
            prior.batch_num + 1⟩ ∧
    prior.batch_num + 1 ≠ prior.batch_num := by
  refine ⟨?_, ?_, Nat.succ_ne_self _⟩
  · unfold run
    rw [hd]
    rfl
  · rw [run_savedStates, hd]
    exact runLoop_first_save brest _ netRest none prior.total_harvested prior.batch_num []
      [.request none] (parsedRecords r.body) (bodyNextToken r.body)
      (fetch_batch_ok r netRest none 3 hs he)

/-- A concrete parsed record standing for prior file content. -/
def dummyParsed : ArxivRecord :=
  { id := some "2301.0001", datestamp := "2024-01-01", title := none, authors := [],
    abstract := none, categories := [], primary_category := none, comments := none,
    journal_ref := none, doi := none, created := none, updated := none, license := none }

/-- C1 amended witness: the amended claim at a concrete Done checkpoint
`{null, 1, 1}` with a non-empty prior file. -/
theorem C1_amended_witness :
    (run [false] (.response c1Resp :: []) ⟨none, 1, 1⟩ [dummyParsed] =
      run [false] (.response c1Resp :: []) ⟨none, 1, 1⟩ []) ∧
    (savedStates (run [false] (.response c1Resp :: []) ⟨none, 1, 1⟩ [dummyParsed]).events).head? =
      some ⟨bodyNextToken c1Resp.body, 1 + (parsedRecords c1Resp.body).length, 1 + 1⟩ ∧
    1 + 1 ≠ 1 :=
  C1_amended [] [] ⟨none, 1, 1⟩ [dummyParsed] c1Resp rfl rfl rfl

/-! ## Claim C10: checkpoint keys and the downstream date diff -/

/-- C10: every checkpoint the harvest loop saves encodes to exactly the
keys `resumption_token`, `total_harvested` and `batch_num`, never a
`fetched_dates` key; hence for any transform state the downstream date
diff `fetched_dates - transformed_dates` is empty and the transform
processes zero new dates. -/
theorem C10_checkpoint_keys_transform_noop (budget : List Bool)
    (net : List TransportOutcome) (token : Option String) (total batchNum : Nat)
    (file : List ArxivRecord) (st : HarvestState)
    (hmem : RunEvent.saveEv st ∈ (runLoop budget net token total batchNum file).events) :
    (stateToKV st).map Prod.fst = ["resumption_token", "total_harvested", "batch_num"] ∧
    kvGet (stateToKV st) "fetched_dates" = none ∧
    (∀ ts, papersNewDates (stateToKV st) ts = []) ∧
    (∀ ts, papersRun (stateToKV st) ts = .noNewDates) := by
  obtain ⟨tok, tot, bn⟩ := st
  refine ⟨?_, ?_, fun ts => ?_, fun ts => ?_⟩ <;> cases tok <;> rfl

/-- C10 witness: a checkpoint actually saved by a concrete run, against a
concrete transform state. -/
theorem C10_checkpoint_keys_transform_noop_witness :
    (stateToKV ⟨none, 1, 1⟩).map Prod.fst =
      ["resumption_token", "total_harvested", "batch_num"] ∧
    kvGet (stateToKV ⟨none, 1, 1⟩) "fetched_dates" = none ∧
    papersNewDates (stateToKV ⟨none, 1, 1⟩)
      [("transformed_dates", .strList ["2024-01-01"])] = [] ∧
    papersRun (stateToKV ⟨none, 1, 1⟩)
      [("transformed_dates", .strList ["2024-01-01"])] = .noNewDates :=
  ⟨(C10_checkpoint_keys_transform_noop [false] oneBatchNet none 0 0 [] ⟨none, 1, 1⟩ (by decide)).1,
   (C10_checkpoint_keys_transform_noop [false] oneBatchNet none 0 0 [] ⟨none, 1, 1⟩ (by decide)).2.1,
   (C10_checkpoint_keys_transform_noop [false] oneBatchNet none 0 0 [] ⟨none, 1, 1⟩ (by decide)).2.2.1 _,
   (C10_checkpoint_keys_transform_noop [false] oneBatchNet none 0 0 [] ⟨none, 1, 1⟩ (by decide)).2.2.2 _⟩
